import Mathlib

/-!
Shallow embedding of `src/main.py` (sql-backup): a mysqldump-to-object-storage
backup pipeline.

The pure helpers (`magnitude_format_size`, `magnitude_time_format`, the backup
file name and storage key derivation, the module-level configuration asserts)
are translated directly from the source.  The effectful pipeline
(`export_sql_to_file`, `upload_file_to_s3`, `main`, the atexit-registered
`remove_if_exists` cleanup) is embedded as a function from an `Oracle`
describing the external world (the dump subprocess returncode and captured
stderr, whether the uploader raises, the measured file size and elapsed time)
to the trace of observable events plus the outcome of `main`.

Numeric values that are Python floats in the source are modelled as rationals:
the formatting loops only compare against and divide by the constants 1024 and
60, and the claims under study concern unit selection and raise thresholds,
which the exact (rational) arithmetic captures.
-/

namespace SqlBackup

/-- Round a rational to the nearest integer, ties to even (the rounding used
by Python fixed-point float formatting). -/
def roundHalfEven (q : ℚ) : ℤ :=
  let f : ℤ := ⌊q⌋
  if q - f < 1/2 then f
  else if 1/2 < q - f then f + 1
  else if f % 2 = 0 then f else f + 1

/-- Fixed-point rendering of a rational with `prec` digits after the decimal
point, as in a Python format spec `.{prec}f`. -/
def formatFixed (prec : ℕ) (q : ℚ) : String :=
  let n : ℤ := roundHalfEven (q * (10:ℚ) ^ prec)
  let sign : String := if n < 0 then "-" else ""
  let m : ℕ := n.natAbs
  let ipart : ℕ := m / 10 ^ prec
  let fpart : ℕ := m % 10 ^ prec
  if prec = 0 then sign ++ toString ipart
  else
    let fs := toString fpart
    sign ++ toString ipart ++ "." ++ (List.replicate (prec - fs.length) '0').asString ++ fs

/-- Left-pad a string with spaces to a minimum width (Python format width). -/
def padLeft (width : ℕ) (s : String) : String :=
  (List.replicate (width - s.length) ' ').asString ++ s

/-- One rendered entry of `magnitude_format_size`: Python `f"{size:3.1f} {unit}"`
(minimum width 3, one decimal digit, a space before the unit). -/
def sizeRender (size : ℚ) (unit : String) : String :=
  padLeft 3 (formatFixed 1 size) ++ " " ++ unit

/-- One rendered entry of `magnitude_time_format`: Python `f"{seconds:.2f}{unit}"`
(two decimal digits, no space before the unit). -/
def timeRender (seconds : ℚ) (unit : String) : String :=
  formatFixed 2 seconds ++ unit

/-- The common loop shape of `magnitude_format_size` and `magnitude_time_format`
in `src/main.py`: walk the unit list in order; if the running value is below
`base`, render it with the current unit and return, otherwise divide by `base`
and continue.  Falling off the end of the unit list models
`raise NotImplementedError` (result `none`). -/
def mag_go (base : ℚ) (render : ℚ → String → String) : ℚ → List String → Option String
  | _, [] => none
  | v, unit :: rest =>
      if v < base then some (render v unit) else mag_go base render (v / base) rest

/-- The unit list of `magnitude_format_size`, in source order. -/
def sizeUnits : List String := ["B", "KB", "MB", "GB", "TB", "PB", "EB", "ZB", "YB"]

/-- The unit list of `magnitude_time_format`, in source order. -/
def timeUnits : List String := ["s", "m", "h"]

/-- `magnitude_format_size` from `src/main.py`: repeatedly divide by 1024
through units B..YB; `none` models `raise NotImplementedError("Size too large")`. -/
def magnitude_format_size (size : ℚ) : Option String :=
  mag_go 1024 sizeRender size sizeUnits

/-- `magnitude_time_format` from `src/main.py`: repeatedly divide by 60
through units s, m, h; `none` models `raise NotImplementedError("Time too large")`. -/
def magnitude_time_format (seconds : ℚ) : Option String :=
  mag_go 60 timeRender seconds timeUnits

/-- The environment values read by the `os.getenv` calls at module level of
`src/main.py`; `none` models an unset variable. -/
structure Env where
  LOG_LEVEL : Option String
  DB_USER : Option String
  DB_PASS : Option String
  DB_NAME : Option String
  AWS_ACCESS_KEY_ID : Option String
  AWS_SECRET_ACCESS_KEY : Option String
  AWS_BUCKET_NAME : Option String
  AWS_BUCKET_REGION : Option String
  AWS_ENDPOINT_URL : Option String

/-- The block of module-level `assert <var> is not None` statements in
`src/main.py` (lines 27-35): true exactly when every `os.getenv` result is
present.  Note the asserts test only for `None`; they say nothing about the
string being non-empty. -/
def configAsserts (e : Env) : Bool :=
  e.LOG_LEVEL.isSome && e.DB_USER.isSome && e.DB_PASS.isSome && e.DB_NAME.isSome &&
    e.AWS_ACCESS_KEY_ID.isSome && e.AWS_SECRET_ACCESS_KEY.isSome &&
    e.AWS_BUCKET_NAME.isSome && e.AWS_BUCKET_REGION.isSome && e.AWS_ENDPOINT_URL.isSome

/-- External-world behaviour of one run, supplied as an oracle: what
`datetime.now().isoformat()` returns, the dump subprocess returncode
(`none` models `process.returncode is None`), the captured stderr bytes,
whether the upload call raises (`some msg` = an exception with message `msg`),
the `os.stat` size of the artifact, and the elapsed `time.perf_counter` delta. -/
structure Oracle where
  iso_now : String
  dump_returncode : Option Int
  dump_stderr : String
  upload_error : Option String
  file_size : ℕ
  elapsed : ℚ

/-- Observable events of one run, in order of occurrence. -/
inductive Event where
  | registerCleanup (file_name : String)
  | openWrite (file_name : String)
  | spawnDump
  | writeDump (file_name : String)
  | openRead (file_name : String)
  | uploadCall (bucket : String) (key : String)
  | logError (msg : String)
  | logInfo (msg : String)
  | removeFile (file_name : String)
  | exitProcess (code : Int)
  deriving DecidableEq

/-- Whether `process.stderr` is `None` in `export_sql_to_file`: the subprocess
is created with `stderr=asyncio.subprocess.PIPE`, so `process.stderr` is a
stream object and this is always false — the guard
`if process.stderr is not None:` in the source is always taken. -/
def processStderrIsNone : Bool := false

/-- The events performed by `export_sql_to_file` (`src/main.py` lines 54-75):
open the backup file for writing (creating/truncating it), spawn the dump
subprocess with stdout redirected into it, await `communicate`, then log the
captured stderr whenever `process.stderr` is not `None`. -/
def dumpEvents (file_name : String) (o : Oracle) : List Event :=
  [Event.openWrite file_name, Event.spawnDump, Event.writeDump file_name] ++
    (if processStderrIsNone then [] else [Event.logError o.dump_stderr])

/-- The return value of `export_sql_to_file`: `process.returncode`, with
`None` mapped to 1. -/
def export_returncode (o : Oracle) : Int :=
  match o.dump_returncode with
  | none => 1
  | some n => n

/-- `export_sql_to_file` from `src/main.py`: its event trace and return value. -/
def export_sql_to_file (file_name : String) (o : Oracle) : List Event × Int :=
  (dumpEvents file_name o, export_returncode o)

/-- `upload_file_to_s3` from `src/main.py` (lines 78-99): open the artifact for
reading, create an s3 client and call `put_object` with key
`f"db-backups/{file_name}"`.  The oracle decides whether the call raises. -/
def upload_file_to_s3 (file_name : String) (_region_name : String)
    (_endpoint_url : String) (_aws_access_key_id : String)
    (_aws_secret_access_key : String) (bucket_name : String) (o : Oracle) :
    List Event × Option String :=
  ([Event.openRead file_name, Event.uploadCall bucket_name ("db-backups/" ++ file_name)],
    o.upload_error)

/-- `remove_if_exists` from `src/main.py` (lines 102-104), over a disk modelled
as the set of existing file names: remove the file if it exists, otherwise do
nothing. -/
def remove_if_exists (disk : Finset String) (file_name : String) : Finset String :=
  if file_name ∈ disk then disk.erase file_name else disk

/-- The local artifact file name chosen in `main`:
`f"backup_{datetime.now().isoformat()}.sql"`. -/
def backup_file_name (iso : String) : String :=
  "backup_" ++ iso ++ ".sql"

/-- How `main` finishes: a returned exit code (delivered as `SystemExit`), or
an exception escaping `main` (e.g. the `NotImplementedError` of a formatter). -/
inductive Outcome where
  | exited (code : Int)
  | faulted (msg : String)
  deriving DecidableEq

/-- `main` from `src/main.py` (lines 107-145): choose the backup file name,
register `remove_if_exists` with atexit, run the dump; on non-zero exit code
return it verbatim; otherwise upload inside `try/except` (returning 1 and
logging on any exception); otherwise stat the file, format size and elapsed
time (either formatter may raise), log the single success line and return 0.
The result is the event trace of `main` and its outcome. -/
def main (e : Env) (o : Oracle) : List Event × Outcome :=
  let name := backup_file_name o.iso_now
  let evs := Event.registerCleanup name :: (export_sql_to_file name o).1
  let export_exit_code := (export_sql_to_file name o).2
  if export_exit_code ≠ 0 then
    (evs, Outcome.exited export_exit_code)
  else
    let uploadResult := upload_file_to_s3 name (e.AWS_BUCKET_REGION.getD "")
      (e.AWS_ENDPOINT_URL.getD "") (e.AWS_ACCESS_KEY_ID.getD "")
      (e.AWS_SECRET_ACCESS_KEY.getD "") (e.AWS_BUCKET_NAME.getD "") o
    let evs := evs ++ uploadResult.1
    match uploadResult.2 with
    | some err =>
      (evs ++ [Event.logError (name ++ " failed uploading to bucket"), Event.logError err],
        Outcome.exited 1)
    | none =>
      match magnitude_format_size (o.file_size : ℚ) with
      | none => (evs, Outcome.faulted "NotImplementedError: Size too large")
      | some file_size =>
        match magnitude_time_format o.elapsed with
        | none => (evs, Outcome.faulted "NotImplementedError: Time too large")
        | some time_elapsed =>
          (evs ++ [Event.logInfo (name ++ " (" ++ file_size ++ ") uploaded in " ++ time_elapsed)],
            Outcome.exited 0)

/-- The process exit code produced by `raise SystemExit(asyncio.run(main()))`:
the returned code, or 1 when an uncaught exception escapes `main`. -/
def exitCodeOf : Outcome → Int
  | Outcome.exited c => c
  | Outcome.faulted _ => 1

/-- The level names accepted by `logging.basicConfig` (the logging module's
level name table): passing any other string as `level` raises
`ValueError: Unknown level`. -/
def validLogLevels : List String :=
  ["CRITICAL", "FATAL", "ERROR", "WARN", "WARNING", "INFO", "DEBUG", "NOTSET"]

/-- Whether `logging.basicConfig(level=<level>)` succeeds for a string level:
it does exactly when the string is one of the logging module's level names. -/
def basicConfigOK (level : String) : Bool :=
  validLogLevels.contains level

/-- A whole process run: the module-level asserts run first (a failing assert
is an uncaught `AssertionError`: the process exits 1 with nothing spawned);
then `logging.basicConfig(level=LOG_LEVEL)` runs (an invalid level string
raises `ValueError`: the process exits 1 before `main`, with nothing spawned
and no cleanup registered); otherwise `main` runs, and at interpreter shutdown
the atexit-registered `remove_if_exists` removes the artifact before the
process terminates. -/
def runProcess (e : Env) (o : Oracle) : List Event :=
  if configAsserts e then
    if basicConfigOK (e.LOG_LEVEL.getD "") then
      (main e o).1 ++
        [Event.removeFile (backup_file_name o.iso_now),
          Event.exitProcess (exitCodeOf (main e o).2)]
    else
      [Event.exitProcess 1]
  else
    [Event.exitProcess 1]

/-- A fully-populated environment, for concrete runs. -/
def envOK : Env :=
  { LOG_LEVEL := some "INFO", DB_USER := some "root", DB_PASS := some "pw",
    DB_NAME := some "appdb", AWS_ACCESS_KEY_ID := some "AKIA",
    AWS_SECRET_ACCESS_KEY := some "SECRET", AWS_BUCKET_NAME := some "bkt",
    AWS_BUCKET_REGION := some "us-east-1", AWS_ENDPOINT_URL := some "https://s3.local" }

/-- An environment with a valid log level in which every credential and
connection variable is set but empty. -/
def envEmptyCreds : Env :=
  { LOG_LEVEL := some "INFO", DB_USER := some "", DB_PASS := some "",
    DB_NAME := some "", AWS_ACCESS_KEY_ID := some "",
    AWS_SECRET_ACCESS_KEY := some "", AWS_BUCKET_NAME := some "",
    AWS_BUCKET_REGION := some "", AWS_ENDPOINT_URL := some "" }

/-- An environment with the database user unset. -/
def envMissingUser : Env :=
  { envOK with DB_USER := none }

/-- A run in which the dump subprocess exits 2. -/
def oracleDumpFail2 : Oracle :=
  { iso_now := "2024-01-01T00:00:00.000001", dump_returncode := some 2,
    dump_stderr := "mysqldump: access denied", upload_error := none,
    file_size := 0, elapsed := 1 }

/-- A run in which the dump subprocess exits 1. -/
def oracleDumpFail1 : Oracle :=
  { oracleDumpFail2 with dump_returncode := some 1 }

/-- A run in which the dump succeeds and the upload raises. -/
def oracleUploadFail : Oracle :=
  { iso_now := "2024-01-01T00:00:00.000001", dump_returncode := some 0,
    dump_stderr := "", upload_error := some "EndpointConnectionError",
    file_size := 2048, elapsed := 90 }

/-- A run in which dump and upload both succeed. -/
def oracleSuccess : Oracle :=
  { iso_now := "2024-01-01T00:00:00.000001", dump_returncode := some 0,
    dump_stderr := "", upload_error := none, file_size := 2048, elapsed := 90 }

lemma mag_go_step (base : ℚ) (render : ℚ → String → String) (v : ℚ) (u : String)
    (rest : List String) (h : ¬ v < base) :
    mag_go base render v (u :: rest) = mag_go base render (v / base) rest := by
  simp [mag_go, h]

lemma mag_go_none (base : ℚ) (render : ℚ → String → String) (hb : 1 ≤ base) :
    ∀ (us : List String) (v : ℚ), base ^ us.length ≤ v → mag_go base render v us = none := by
  intro us
  induction us with
  | nil => intro v _; rfl
  | cons u rest ih =>
    intro v hv
    have hbase : (0:ℚ) < base := lt_of_lt_of_le one_pos hb
    have hv' : base ^ (rest.length + 1) ≤ v := by simpa using hv
    have h1 : ¬ v < base := by
      rw [not_lt]
      calc base = base ^ 1 := (pow_one base).symm
        _ ≤ base ^ (rest.length + 1) := pow_le_pow_right₀ hb (by omega)
        _ ≤ v := hv'
    rw [mag_go_step base render v u rest h1]
    apply ih
    rw [le_div_iff₀ hbase]
    calc base ^ rest.length * base = base ^ (rest.length + 1) := (pow_succ base rest.length).symm
      _ ≤ v := hv'

lemma mag_go_some (base : ℚ) (render : ℚ → String → String) (hb : 1 ≤ base) :
    ∀ (us : List String) (v : ℚ) (k : ℕ), k < us.length →
      (∀ j, j < k → base ^ (j + 1) ≤ v) → v < base ^ (k + 1) →
      mag_go base render v us = some (render (v / base ^ k) (us.getD k "")) := by
  intro us
  induction us with
  | nil => intro v k hk _ _; exact absurd hk (by simp)
  | cons u rest ih =>
    intro v k hk hlow hhigh
    have hbase : (0:ℚ) < base := lt_of_lt_of_le one_pos hb
    cases k with
    | zero =>
      have h1 : v < base := by simpa using hhigh
      simp [mag_go, h1]
    | succ k' =>
      have h1 : ¬ v < base := by
        rw [not_lt]
        have := hlow 0 (Nat.succ_pos k')
        simpa using this
      rw [mag_go_step base render v u rest h1]
      have hrec := ih (v / base) k' (by simpa using hk)
        (fun j hj => by
          rw [le_div_iff₀ hbase]
          calc base ^ (j + 1) * base = base ^ (j + 2) := (pow_succ base (j + 1)).symm
            _ ≤ v := hlow (j + 1) (by omega))
        (by
          rw [div_lt_iff₀ hbase]
          calc v < base ^ (k' + 2) := hhigh
            _ = base ^ (k' + 1) * base := pow_succ base (k' + 1))
      rw [hrec]
      have harg : v / base / base ^ k' = v / base ^ (k' + 1) := by
        rw [div_div, ← pow_succ']
      rw [harg]
      rfl

lemma mag_some_exists (base : ℚ) (render : ℚ → String → String) (hb : 1 ≤ base)
    (us : List String) (h0 : 0 < us.length) (v : ℚ) (hlt : v < base ^ us.length) :
    ∃ k, k < us.length ∧ v / base ^ k < base ∧ (∀ j, j < k → base ≤ v / base ^ j) ∧
      mag_go base render v us = some (render (v / base ^ k) (us.getD k "")) := by
  have hbase : (0:ℚ) < base := lt_of_lt_of_le one_pos hb
  have hex : ∃ j, v < base ^ (j + 1) := ⟨us.length - 1, by rwa [Nat.sub_add_cancel h0]⟩
  have hk_spec : v < base ^ (Nat.find hex + 1) := Nat.find_spec hex
  have hk_min : ∀ j, j < Nat.find hex → base ^ (j + 1) ≤ v := by
    intro j hj
    exact not_lt.mp (Nat.find_min hex hj)
  have hk_le : Nat.find hex ≤ us.length - 1 :=
    Nat.find_le (by rwa [Nat.sub_add_cancel h0])
  have hk_lt : Nat.find hex < us.length := by omega
  refine ⟨Nat.find hex, hk_lt, ?_, ?_, ?_⟩
  · rw [div_lt_iff₀ (pow_pos hbase (Nat.find hex))]
    calc v < base ^ (Nat.find hex + 1) := hk_spec
      _ = base * base ^ Nat.find hex := pow_succ' base (Nat.find hex)
    -- the calc above needs the orientation `v < base * base ^ k`
  · intro j hj
    rw [le_div_iff₀ (pow_pos hbase j)]
    calc base * base ^ j = base ^ (j + 1) := (pow_succ' base j).symm
      _ ≤ v := hk_min j hj
  · exact mag_go_some base render hb us v (Nat.find hex) hk_lt hk_min hk_spec

lemma runProcess_eq (e : Env) (o : Oracle) (h : configAsserts e = true)
    (hlog : basicConfigOK (e.LOG_LEVEL.getD "") = true) :
    runProcess e o = (main e o).1 ++
      [Event.removeFile (backup_file_name o.iso_now),
        Event.exitProcess (exitCodeOf (main e o).2)] := by
  simp [runProcess, h, hlog]

lemma main_fst_shape (e : Env) (o : Oracle) :
    ∃ rest, (main e o).1 = Event.registerCleanup (backup_file_name o.iso_now) :: rest := by
  unfold main
  simp only [export_sql_to_file]
  split
  · exact ⟨_, rfl⟩
  · split
    · simp only [List.cons_append]
      exact ⟨_, rfl⟩
    · split
      · simp only [List.cons_append]
        exact ⟨_, rfl⟩
      · split
        · simp only [List.cons_append]
          exact ⟨_, rfl⟩
        · simp only [List.cons_append]
          exact ⟨_, rfl⟩

lemma main_dump_fail (e : Env) (o : Oracle) (N : Int) (hc : o.dump_returncode = some N)
    (hN : N ≠ 0) :
    main e o = (Event.registerCleanup (backup_file_name o.iso_now) ::
      dumpEvents (backup_file_name o.iso_now) o, Outcome.exited N) := by
  unfold main
  simp [export_sql_to_file, export_returncode, hc, hN]

lemma main_upload_fail (e : Env) (o : Oracle) (msg : String)
    (hc : o.dump_returncode = some 0) (hu : o.upload_error = some msg) :
    main e o = (Event.registerCleanup (backup_file_name o.iso_now) ::
      (dumpEvents (backup_file_name o.iso_now) o ++
        ([Event.openRead (backup_file_name o.iso_now),
          Event.uploadCall (e.AWS_BUCKET_NAME.getD "")
            ("db-backups/" ++ backup_file_name o.iso_now)] ++
         [Event.logError (backup_file_name o.iso_now ++ " failed uploading to bucket"),
          Event.logError msg])),
      Outcome.exited 1) := by
  unfold main
  simp [export_sql_to_file, export_returncode, upload_file_to_s3, hc, hu]

lemma main_upload_call_mem (e : Env) (o : Oracle) (hc : o.dump_returncode = some 0) :
    Event.uploadCall (e.AWS_BUCKET_NAME.getD "")
      ("db-backups/" ++ backup_file_name o.iso_now) ∈ (main e o).1 := by
  have h0 : export_returncode o = 0 := by simp [export_returncode, hc]
  unfold main
  simp only [export_sql_to_file, h0]
  rw [if_neg (by norm_num)]
  split
  · simp [upload_file_to_s3]
  · split
    · simp [upload_file_to_s3]
    · split
      · simp [upload_file_to_s3]
      · simp [upload_file_to_s3]

/-- Claim C7: for every non-negative duration `t` in seconds,
`magnitude_time_format` divides by 60 at each step through units s, m, h,
renders `t / 60 ^ k` to two decimal places, and the scaled value shown is
below 60 in every unit (in particular in m and h); durations with
`t ≥ 216000 = 60 ^ 3` are beyond the largest unit h and are an explicit
error (`none`). -/
theorem C7_time_formatter (t : ℚ) (ht : 0 ≤ t) :
    (t < 216000 →
      ∃ k, k < 3 ∧ t / 60 ^ k < 60 ∧ (∀ j, j < k → (60:ℚ) ≤ t / 60 ^ j) ∧
        magnitude_time_format t = some (timeRender (t / 60 ^ k) (timeUnits.getD k ""))) ∧
    (216000 ≤ t → magnitude_time_format t = none) := by
  constructor
  · intro hlt
    have hlt' : t < (60:ℚ) ^ timeUnits.length := by
      have h3 : ((60:ℚ) ^ timeUnits.length) = 216000 := by norm_num [timeUnits]
      rw [h3]
      exact hlt
    obtain ⟨k, hk, h1, h2, h3⟩ := mag_some_exists 60 timeRender (by norm_num) timeUnits
      (by simp [timeUnits]) t hlt'
    exact ⟨k, by simpa [timeUnits] using hk, h1, h2, h3⟩
  · intro hge
    apply mag_go_none 60 timeRender (by norm_num) timeUnits t
    have h3 : ((60:ℚ) ^ timeUnits.length) = 216000 := by norm_num [timeUnits]
    rw [h3]
    exact hge

/-- Witness for C7 at the concrete duration 90 seconds. -/
theorem C7_witness :
    (0:ℚ) ≤ 90 ∧
    (((90:ℚ) < 216000 →
      ∃ k, k < 3 ∧ (90:ℚ) / 60 ^ k < 60 ∧ (∀ j, j < k → (60:ℚ) ≤ 90 / 60 ^ j) ∧
        magnitude_time_format 90 = some (timeRender ((90:ℚ) / 60 ^ k) (timeUnits.getD k ""))) ∧
    ((216000:ℚ) ≤ 90 → magnitude_time_format 90 = none)) :=
  ⟨by norm_num, C7_time_formatter 90 (by norm_num)⟩

/-- Claim C1: whenever startup completes (the configuration asserts pass and
`logging.basicConfig` accepts the log level, so the pipeline runs), on every
control-flow path — success, dump failure, upload failure, formatter fault —
the run trace begins with the cleanup registration for the chosen artifact
name (hence registration happens at the moment the name is chosen, before any
write to the artifact), and the artifact removal occurs at the end of the
trace, immediately before process termination; moreover `remove_if_exists`
removes the artifact from any disk state. -/
theorem C1_cleanup_guarantee (e : Env) (o : Oracle) (h : configAsserts e = true)
    (hlog : basicConfigOK (e.LOG_LEVEL.getD "") = true) :
    (∃ p c, runProcess e o = Event.registerCleanup (backup_file_name o.iso_now) ::
        (p ++ [Event.removeFile (backup_file_name o.iso_now), Event.exitProcess c])) ∧
    (∀ i, ((runProcess e o).get? i = some (Event.openWrite (backup_file_name o.iso_now)) ∨
        (runProcess e o).get? i = some (Event.writeDump (backup_file_name o.iso_now))) →
      0 < i) ∧
    (∀ disk : Finset String,
      backup_file_name o.iso_now ∉ remove_if_exists disk (backup_file_name o.iso_now)) := by
  obtain ⟨rest, hrest⟩ := main_fst_shape e o
  have htr : runProcess e o = Event.registerCleanup (backup_file_name o.iso_now) ::
      (rest ++ [Event.removeFile (backup_file_name o.iso_now),
        Event.exitProcess (exitCodeOf (main e o).2)]) := by
    rw [runProcess_eq e o h hlog, hrest]
    simp
  refine ⟨⟨rest, exitCodeOf (main e o).2, htr⟩, ?_, ?_⟩
  · intro i hi
    by_contra h0
    push_neg at h0
    have hi0 : i = 0 := by omega
    subst hi0
    rw [htr] at hi
    simp at hi
  · intro disk
    unfold remove_if_exists
    split
    · exact Finset.not_mem_erase _ _
    · next hmem => exact hmem

/-- Witness for C1: a concrete fully-successful run. -/
theorem C1_witness :
    configAsserts envOK = true ∧
    basicConfigOK (envOK.LOG_LEVEL.getD "") = true ∧
    ((∃ p c, runProcess envOK oracleSuccess =
        Event.registerCleanup (backup_file_name oracleSuccess.iso_now) ::
          (p ++ [Event.removeFile (backup_file_name oracleSuccess.iso_now),
            Event.exitProcess c])) ∧
     (∀ i, ((runProcess envOK oracleSuccess).get? i =
          some (Event.openWrite (backup_file_name oracleSuccess.iso_now)) ∨
        (runProcess envOK oracleSuccess).get? i =
          some (Event.writeDump (backup_file_name oracleSuccess.iso_now))) →
      0 < i) ∧
     (∀ disk : Finset String,
       backup_file_name oracleSuccess.iso_now ∉
         remove_if_exists disk (backup_file_name oracleSuccess.iso_now))) :=
  ⟨rfl, rfl, C1_cleanup_guarantee envOK oracleSuccess rfl rfl⟩

/-- Claim C2: in a run whose startup completes, if the dump subprocess exits
with code N ≠ 0, `main` returns exactly N (no translation), the process exits
with N, and no upload call occurs anywhere in the run. -/
theorem C2_dump_failure (e : Env) (o : Oracle) (N : Int) (h : configAsserts e = true)
    (hlog : basicConfigOK (e.LOG_LEVEL.getD "") = true)
    (hc : o.dump_returncode = some N) (hN : N ≠ 0) :
    (main e o).2 = Outcome.exited N ∧
    (∀ b k, Event.uploadCall b k ∉ runProcess e o) ∧
    (∃ p, runProcess e o = p ++ [Event.removeFile (backup_file_name o.iso_now),
      Event.exitProcess N]) := by
  have hm := main_dump_fail e o N hc hN
  refine ⟨by rw [hm], ?_, ?_⟩
  · intro b k
    rw [runProcess_eq e o h hlog, hm]
    simp [dumpEvents, processStderrIsNone]
  · refine ⟨Event.registerCleanup (backup_file_name o.iso_now) ::
      dumpEvents (backup_file_name o.iso_now) o, ?_⟩
    rw [runProcess_eq e o h hlog, hm]
    simp [exitCodeOf]

/-- Witness for C2: a concrete run in which the dump exits 2. -/
theorem C2_witness :
    configAsserts envOK = true ∧ basicConfigOK (envOK.LOG_LEVEL.getD "") = true ∧
    oracleDumpFail2.dump_returncode = some 2 ∧ (2:Int) ≠ 0 ∧
    ((main envOK oracleDumpFail2).2 = Outcome.exited 2 ∧
     (∀ b k, Event.uploadCall b k ∉ runProcess envOK oracleDumpFail2) ∧
     (∃ p, runProcess envOK oracleDumpFail2 =
        p ++ [Event.removeFile (backup_file_name oracleDumpFail2.iso_now),
          Event.exitProcess 2])) :=
  ⟨rfl, rfl, rfl, by decide,
    C2_dump_failure envOK oracleDumpFail2 2 rfl rfl rfl (by decide)⟩

/-- Counterexample to claim C3 as stated: the fixed generic upload-failure
exit code is 1, but a dump exiting 1 also makes the pipeline exit 1 — the
upload-failure code is not distinct from every possible dump-failure exit
code. -/
theorem C3_counterexample :
    (main envOK oracleUploadFail).2 = Outcome.exited 1 ∧
    (main envOK oracleDumpFail1).2 = Outcome.exited 1 := by
  constructor
  · rw [main_upload_fail envOK oracleUploadFail "EndpointConnectionError" rfl rfl]
  · rw [main_dump_fail envOK oracleDumpFail1 1 rfl (by norm_num)]

/-- Claim C3 (amended): if the dump succeeds and any exception occurs during
the upload, `main` catches it, logs the artifact name and the underlying
cause at error level, and returns the fixed generic exit code 1 — a code that
is not distinct from dump-failure exit codes (a dump exiting 1 yields the
same process exit code). -/
theorem C3_upload_failure (e : Env) (o : Oracle) (msg : String)
    (h : configAsserts e = true)
    (hlog : basicConfigOK (e.LOG_LEVEL.getD "") = true)
    (hc : o.dump_returncode = some 0)
    (hu : o.upload_error = some msg) :
    (main e o).2 = Outcome.exited 1 ∧
    Event.logError (backup_file_name o.iso_now ++ " failed uploading to bucket")
      ∈ (main e o).1 ∧
    Event.logError msg ∈ (main e o).1 ∧
    (∃ p, runProcess e o = p ++ [Event.removeFile (backup_file_name o.iso_now),
      Event.exitProcess 1]) := by
  have hm := main_upload_fail e o msg hc hu
  refine ⟨by rw [hm], ?_, ?_, ?_⟩
  · rw [hm]; simp
  · rw [hm]; simp
  · refine ⟨Event.registerCleanup (backup_file_name o.iso_now) ::
      (dumpEvents (backup_file_name o.iso_now) o ++
        ([Event.openRead (backup_file_name o.iso_now),
          Event.uploadCall (e.AWS_BUCKET_NAME.getD "")
            ("db-backups/" ++ backup_file_name o.iso_now)] ++
         [Event.logError (backup_file_name o.iso_now ++ " failed uploading to bucket"),
          Event.logError msg])), ?_⟩
    rw [runProcess_eq e o h hlog, hm]
    simp [exitCodeOf]

/-- Witness for C3 (amended) at a concrete failing upload. -/
theorem C3_witness :
    configAsserts envOK = true ∧ basicConfigOK (envOK.LOG_LEVEL.getD "") = true ∧
    oracleUploadFail.dump_returncode = some 0 ∧
    oracleUploadFail.upload_error = some "EndpointConnectionError" ∧
    ((main envOK oracleUploadFail).2 = Outcome.exited 1 ∧
     Event.logError (backup_file_name oracleUploadFail.iso_now ++ " failed uploading to bucket")
       ∈ (main envOK oracleUploadFail).1 ∧
     Event.logError "EndpointConnectionError" ∈ (main envOK oracleUploadFail).1 ∧
     (∃ p, runProcess envOK oracleUploadFail =
        p ++ [Event.removeFile (backup_file_name oracleUploadFail.iso_now),
          Event.exitProcess 1])) :=
  ⟨rfl, rfl, rfl, rfl,
    C3_upload_failure envOK oracleUploadFail "EndpointConnectionError" rfl rfl rfl rfl⟩

/-- Counterexample to claim C4 as stated: an environment with a valid log
level (`INFO`, so `logging.basicConfig` succeeds) in which every credential
and connection variable is set to the empty string passes the configuration
asserts — they check only presence (`is not None`) — and the pipeline
proceeds to spawn the dump with empty credentials; non-emptiness is not
validated. -/
theorem C4_counterexample :
    configAsserts envEmptyCreds = true ∧
    basicConfigOK (envEmptyCreds.LOG_LEVEL.getD "") = true ∧
    envEmptyCreds.DB_USER = some "" ∧
    Event.spawnDump ∈ runProcess envEmptyCreds oracleDumpFail1 := by
  refine ⟨rfl, rfl, rfl, ?_⟩
  rw [runProcess_eq envEmptyCreds oracleDumpFail1 rfl rfl,
    main_dump_fail envEmptyCreds oracleDumpFail1 1 rfl (by norm_num)]
  simp [dumpEvents, processStderrIsNone]

/-- Claim C4 (amended): every configuration field is validated to be present
(set in the environment) before the pipeline may run; if any of the eight is
unset, the module-level assert fails and the process aborts at startup with
exit code 1, spawning no external process and performing no upload call.
An empty-string value, however, passes the validation. -/
theorem C4_missing_config_aborts (e : Env) (o : Oracle)
    (h : e.DB_USER = none ∨ e.DB_PASS = none ∨ e.DB_NAME = none ∨
      e.AWS_ACCESS_KEY_ID = none ∨ e.AWS_SECRET_ACCESS_KEY = none ∨
      e.AWS_BUCKET_NAME = none ∨ e.AWS_BUCKET_REGION = none ∨
      e.AWS_ENDPOINT_URL = none) :
    configAsserts e = false ∧ runProcess e o = [Event.exitProcess 1] ∧
    Event.spawnDump ∉ runProcess e o ∧
    (∀ b k, Event.uploadCall b k ∉ runProcess e o) := by
  have hca : configAsserts e = false := by
    rcases h with h | h | h | h | h | h | h | h <;> simp [configAsserts, h]
  have hrp : runProcess e o = [Event.exitProcess 1] := by simp [runProcess, hca]
  refine ⟨hca, hrp, ?_, ?_⟩
  · rw [hrp]; simp
  · intro b k; rw [hrp]; simp

/-- Witness for C4 (amended): the database user unset. -/
theorem C4_witness :
    (envMissingUser.DB_USER = none ∨ envMissingUser.DB_PASS = none ∨
      envMissingUser.DB_NAME = none ∨ envMissingUser.AWS_ACCESS_KEY_ID = none ∨
      envMissingUser.AWS_SECRET_ACCESS_KEY = none ∨ envMissingUser.AWS_BUCKET_NAME = none ∨
      envMissingUser.AWS_BUCKET_REGION = none ∨ envMissingUser.AWS_ENDPOINT_URL = none) ∧
    (configAsserts envMissingUser = false ∧
     runProcess envMissingUser oracleSuccess = [Event.exitProcess 1] ∧
     Event.spawnDump ∉ runProcess envMissingUser oracleSuccess ∧
     (∀ b k, Event.uploadCall b k ∉ runProcess envMissingUser oracleSuccess)) :=
  ⟨Or.inl rfl, C4_missing_config_aborts envMissingUser oracleSuccess (Or.inl rfl)⟩

/-- Claim C5: with injected timestamp `t`, the local artifact file name is
exactly `backup_<t>.sql` and the storage key of the upload call is exactly
that file name prefixed with the fixed segment `db-backups/`; both are
deterministic functions of the timestamp. -/
theorem C5_key_and_filename (e : Env) (o : Oracle) (h : configAsserts e = true)
    (hlog : basicConfigOK (e.LOG_LEVEL.getD "") = true)
    (hc : o.dump_returncode = some 0) :
    backup_file_name o.iso_now = "backup_" ++ o.iso_now ++ ".sql" ∧
    Event.uploadCall (e.AWS_BUCKET_NAME.getD "")
      ("db-backups/" ++ backup_file_name o.iso_now) ∈ runProcess e o ∧
    (∀ o' : Oracle, o'.iso_now = o.iso_now →
      backup_file_name o'.iso_now = backup_file_name o.iso_now) := by
  refine ⟨rfl, ?_, ?_⟩
  · rw [runProcess_eq e o h hlog]
    exact List.mem_append_left _ (main_upload_call_mem e o hc)
  · intro o' h'
    rw [h']

/-- Witness for C5 at a concrete successful run. -/
theorem C5_witness :
    configAsserts envOK = true ∧ basicConfigOK (envOK.LOG_LEVEL.getD "") = true ∧
    oracleSuccess.dump_returncode = some 0 ∧
    (backup_file_name oracleSuccess.iso_now = "backup_" ++ oracleSuccess.iso_now ++ ".sql" ∧
     Event.uploadCall (envOK.AWS_BUCKET_NAME.getD "")
       ("db-backups/" ++ backup_file_name oracleSuccess.iso_now)
       ∈ runProcess envOK oracleSuccess ∧
     (∀ o' : Oracle, o'.iso_now = oracleSuccess.iso_now →
       backup_file_name o'.iso_now = backup_file_name oracleSuccess.iso_now)) :=
  ⟨rfl, rfl, rfl, C5_key_and_filename envOK oracleSuccess rfl rfl rfl⟩

/-- Claim C8 contradicts the code (code bug): `export_sql_to_file` guards the
stderr logging with `if process.stderr is not None:`, but the subprocess is
created with `stderr=asyncio.subprocess.PIPE`, so `process.stderr` is a stream
object and never `None` — the guard is vacuous and even a clean successful
dump (exit code 0, empty stderr) emits a diagnostic `logging.error` line. -/
theorem C8_stderr_logged_on_clean_success :
    processStderrIsNone = false ∧
    (export_sql_to_file (backup_file_name oracleSuccess.iso_now) oracleSuccess).2 = 0 ∧
    Event.logError ""
      ∈ (export_sql_to_file (backup_file_name oracleSuccess.iso_now) oracleSuccess).1 ∧
    Event.logError oracleSuccess.dump_stderr ∈ (main envOK oracleSuccess).1 := by
  refine ⟨rfl, rfl, ?_, ?_⟩
  · simp [export_sql_to_file, dumpEvents, processStderrIsNone, oracleSuccess]
  · unfold main
    simp only [export_sql_to_file]
    rw [if_neg (by decide)]
    split
    · simp [dumpEvents, processStderrIsNone]
    · split
      · simp [dumpEvents, processStderrIsNone]
      · split
        · simp [dumpEvents, processStderrIsNone]
        · simp [dumpEvents, processStderrIsNone]

end SqlBackup
